import Mathlib

/-!
Verification development for the `dmc-transferlist-aio` repository: a shallow
embedding of the transfer-list widget's logic (`src/transferlist_aio.py`)
together with proofs about its behavior.

The embedded parts are:
* the item data model (dicts with `label` and `value` keys),
* the construction-time checklist truncation (`TransferList.checklist`, which
  slices `value[:limit]` when `limit` is truthy),
* the search callback `filter_checklist`,
* the transfer callback `transfer_values`,
* a state machine wiring the callbacks to a widget state, one reconciliation
  step per stimulus (search edit, checkbox toggle, transfer click,
  transfer-all click), mirroring the Dash callback wiring.

Python-specific behavior is modelled explicitly: `None`-able callback inputs
are `Option`s, truthiness of strings/lists/`None` is spelled out
(`pyFalsyStr`, `pyFalsySel`), and the `json.dumps`/`json.loads` round-trip of
the `data-*` attributes is modelled for the values that actually flow through
it (`Option String` payloads without escape sequences, and booleans).
-/

/-- Item of a transfer list: a dict with `label` and `value` keys. -/
structure Item where
  value : String
  label : String
deriving DecidableEq, Repr

/-- Side of the transfer list, the `side` key of the pattern-matched ids. -/
inductive Side where
  | left
  | right
deriving DecidableEq, Repr

/-- The `x[0] if side == "left" else x[1]` indexing both callbacks use. -/
def pickSide {α : Type} (x : α × α) : Side → α
  | .left => x.1
  | .right => x.2

/-- Python truthiness of a string: `not s` holds exactly when `s` is empty
(the callbacks receive `None` only where the model already uses `Option`). -/
def pyFalsyStr (s : String) : Bool := s == ""

/-- Python truthiness of a checklist `value` state, which may be `None` or a
list: `not x` holds for `None` and for the empty list. -/
def pyFalsySel : Option (List String) → Bool
  | none => true
  | some l => l.isEmpty

/-- Python substring test `needle in hay` on lists of characters. -/
def beginsWith : List Char → List Char → Bool
  | _, [] => true
  | [], _ :: _ => false
  | a :: as, b :: bs => a == b && beginsWith as bs

/-- Python `needle in hay` (substring containment), on lists of characters. -/
def containsSub : List Char → List Char → Bool
  | [], needle => needle.isEmpty
  | h :: t, needle => beginsWith (h :: t) needle || containsSub t needle

/-- Python `s.lower()`, as the lowered character list (per-character
lowering, adequate for the ASCII data this widget handles). -/
def pyLower (s : String) : List Char := s.data.map Char.toLower

/-- The filter predicate shared by `filter_checklist` and `transfer_values`:
`not search or search.lower() in v["label"].lower()`. -/
def matchesSearch (search : String) (v : Item) : Bool :=
  pyFalsyStr search || containsSub (pyLower v.label) (pyLower search)

/-- `json.dumps` of the optional-text configuration entries (`placeholder`,
`nothingFound`): `None ↦ "null"`, a string is wrapped in double quotes.
Escape sequences are not modelled; the configuration strings of this
development contain neither quotes nor backslashes. -/
def jsonDumpsOpt : Option String → String
  | none => "null"
  | some s => "\x22" ++ s ++ "\x22"

/-- `json.loads` on the strings produced by `jsonDumpsOpt`: `"null" ↦ None`,
otherwise the surrounding double quotes are stripped. -/
def jsonLoadsOpt (s : String) : Option String :=
  if s = "null" then none else some (String.mk s.data.tail.dropLast)

/-- `json.dumps` of the `transferAllMatchingFilters` boolean. -/
def jsonDumpsBool (b : Bool) : String := if b then "true" else "false"

/-- `json.loads` on the strings produced by `jsonDumpsBool`. -/
def jsonLoadsBool (s : String) : Bool := s == "true"

/-- Rendered content of a checklist (`children` property): either a list of
checkboxes (one per item, as built by `TransferList.checkbox`), a dimmed
`dmc.Text` whose content may be `None`, or no children at all (`None`). -/
inductive Children where
  | boxes : List Item → Children
  | text : Option String → Children
  | nothing : Children
deriving DecidableEq, Repr

/-- Number of items rendered in a checklist. -/
def Children.count : Children → Nat
  | .boxes l => l.length
  | _ => 0

/-- Truncation performed in `TransferList.checklist`: `if limit: value =
value[:limit]`. Python truthiness makes `limit=None` and `limit=0` both
no-ops. -/
def applyLimit (limit : Option Nat) (value : List Item) : List Item :=
  match limit with
  | none => value
  | some n => if n = 0 then value else value.take n

/-- Per-instance configuration relevant to the callbacks (the remaining
constructor parameters are purely cosmetic). -/
structure WidgetConfig where
  limit : Option Nat
  nothingFound : Option String
  placeholder : Option String
  transferAllMatchingFilters : Bool

/-- Observable state of one widget instance: the main `JsonInput` value (the
two lists), and per side the checklist `value` (selection), the search input
`value`, and the checklist `children`. -/
structure TLState where
  listL : List Item
  listR : List Item
  selL : Option (List String)
  selR : Option (List String)
  searchL : String
  searchR : String
  childrenL : Children
  childrenR : Children
deriving DecidableEq, Repr

/-- Construction-time error vocabulary of the spec. -/
inductive ConstructError where
  | duplicateValue
deriving DecidableEq, Repr

/-- Initial state built by `TransferList.__init__`: the hidden `JsonInput`
holds `value` as given; each side's checklist renders `value[:limit]`
checkboxes; searches and selections start unset. -/
def initState (limit : Option Nat) (value : List Item × List Item) : TLState :=
  { listL := value.1
    listR := value.2
    selL := none
    selR := none
    searchL := ""
    searchR := ""
    childrenL := .boxes (applyLimit limit value.1)
    childrenR := .boxes (applyLimit limit value.2) }

/-- Constructor entry point. `TransferList.__init__` stores `value`
unconditionally: it performs no duplicate-value validation and has no
failure path, so the result is always `ok`. The `Except` wrapper makes the
spec's `DuplicateValueError` expressible. -/
def construct (limit : Option Nat) (value : List Item × List Item) :
    Except ConstructError TLState :=
  .ok (initState limit value)

/-- The body of the `filter_checklist` callback for the triggering side
(after the `ctx.triggered_id` dispatch guard): `values` is the main
`JsonInput` value, `nothing_found` and `placeholder` are the JSON-encoded
`data-*` attributes, `selection` is the checklist `value` state (possibly
`None`). Returns the new `children` and the new checklist `value`. -/
def filter_checklist (search : String) (values : List Item × List Item)
    (nothing_found : String) (placeholder : String)
    (selection : Option (List String)) (side : Side) :
    Children × List String :=
  let value := pickSide values side
  let filtered := value.filter (matchesSearch search)
  let filtered_values := filtered.map Item.value
  let updated_selection :=
    (selection.getD []).filter (fun s => filtered_values.contains s)
  let children : Children :=
    if !filtered.isEmpty then
      .boxes filtered
    else if !(pyFalsyStr search) && !(pyFalsyStr nothing_found) then
      .text (jsonLoadsOpt nothing_found)
    else if pyFalsyStr search && !(pyFalsyStr placeholder) then
      .text (jsonLoadsOpt placeholder)
    else
      .nothing
  (children, updated_selection)

/-- Which button fired the `transfer_values` callback. -/
inductive Trigger where
  | transfer
  | transferAll
deriving DecidableEq, Repr

/-- Outputs of `transfer_values`; `none` is Dash's `no_update` for that
output (the callback updates either all four outputs or none). -/
structure TransferPatch where
  value : Option (List Item × List Item)
  children : Option (Children × Children)
  selection : Option (List String × List String)
  search : Option (String × String)
deriving DecidableEq, Repr

/-- The all-`no_update` patch returned on the no-op branch. -/
def TransferPatch.noUpdate : TransferPatch :=
  { value := none, children := none, selection := none, search := none }

/-- The `transferred` list computed at the top of `transfer_values`: the
triggering side's selection for the transfer button, or (for transfer-all)
the values of that side's items, filtered by the live search when
`transferAllMatchingFilters` is set. -/
def transferredOf (trig : Trigger) (side : Side)
    (selection : Option (List String) × Option (List String))
    (search : String × String)
    (current_value : List Item × List Item)
    (transfer_matching : String) : Option (List String) :=
  match trig with
  | .transfer => pickSide selection side
  | .transferAll =>
    let cur := pickSide current_value side
    if jsonLoadsBool transfer_matching then
      let search_ := pickSide search side
      some ((cur.filter (matchesSearch search_)).map Item.value)
    else
      some (cur.map Item.value)

/-- The body of the `transfer_values` callback (after the
`ctx.triggered_id`/`n_clicks` dispatch guard): partitions the clicked side
by membership of each item's value in `transferred`, appends the moved items
to the other side, rebuilds both checklists (or the placeholder text), and
resets both selections to `[]` and both search inputs to `""`. When
`transferred` is falsy every output is `no_update`. -/
def transfer_values (trig : Trigger) (side : Side)
    (selection : Option (List String) × Option (List String))
    (search : String × String)
    (current_value : List Item × List Item)
    (placeholder : String)
    (transfer_matching : String) : TransferPatch :=
  let transferred :=
    transferredOf trig side selection search current_value transfer_matching
  if pyFalsySel transferred then
    .noUpdate
  else
    let t := transferred.getD []
    let new_value : List Item × List Item :=
      match side with
      | .left =>
        (current_value.1.filter (fun v => !(t.contains v.value)),
         current_value.2 ++ current_value.1.filter (fun v => t.contains v.value))
      | .right =>
        (current_value.1 ++ current_value.2.filter (fun v => t.contains v.value),
         current_value.2.filter (fun v => !(t.contains v.value)))
    let ph := jsonLoadsOpt placeholder
    let new_children : Children × Children :=
      (if !new_value.1.isEmpty then .boxes new_value.1 else .text ph,
       if !new_value.2.isEmpty then .boxes new_value.2 else .text ph)
    { value := some new_value
      children := some new_children
      selection := some ([], [])
      search := some ("", "") }

/-- Field accessor for a side's list. -/
def TLState.listOf (s : TLState) : Side → List Item
  | .left => s.listL
  | .right => s.listR

/-- Field accessor for a side's selection. -/
def TLState.selOf (s : TLState) : Side → Option (List String)
  | .left => s.selL
  | .right => s.selR

/-- Field accessor for a side's search text. -/
def TLState.searchOf (s : TLState) : Side → String
  | .left => s.searchL
  | .right => s.searchR

/-- Field accessor for a side's rendered children. -/
def TLState.childrenOf (s : TLState) : Side → Children
  | .left => s.childrenL
  | .right => s.childrenR

/-- Update one side's search text. -/
def TLState.setSearch (s : TLState) (side : Side) (text : String) : TLState :=
  match side with
  | .left => { s with searchL := text }
  | .right => { s with searchR := text }

/-- Update one side's selection. -/
def TLState.setSel (s : TLState) (side : Side) (sel : Option (List String)) :
    TLState :=
  match side with
  | .left => { s with selL := sel }
  | .right => { s with selR := sel }

/-- Update one side's rendered children. -/
def TLState.setChildren (s : TLState) (side : Side) (c : Children) : TLState :=
  match side with
  | .left => { s with childrenL := c }
  | .right => { s with childrenR := c }

/-- Apply a `TransferPatch` to the widget state; a `none` output
(`no_update`) leaves the corresponding fields untouched. -/
def applyTransferPatch (s : TLState) (p : TransferPatch) : TLState :=
  let s := match p.value with
    | none => s
    | some nv => { s with listL := nv.1, listR := nv.2 }
  let s := match p.children with
    | none => s
    | some nc => { s with childrenL := nc.1, childrenR := nc.2 }
  let s := match p.selection with
    | none => s
    | some ns => { s with selL := some ns.1, selR := some ns.2 }
  match p.search with
  | none => s
  | some nq => { s with searchL := nq.1, searchR := nq.2 }

/-- External stimuli handled by the callbacks: editing a search input
(fires `filter_checklist`), toggling checkboxes (the checklist `value`
changes client-side), and the two button clicks (fire `transfer_values`). -/
inductive Stim where
  | searchChanged (side : Side) (text : String)
  | checkChanged (side : Side) (sel : Option (List String))
  | transferClick (side : Side)
  | transferAllClick (side : Side)

/-- One reconciliation step: dispatch a stimulus to the matching callback
and apply its outputs, exactly as the Dash wiring does. -/
def step (cfg : WidgetConfig) (s : TLState) : Stim → TLState
  | .searchChanged side text =>
    let s1 := s.setSearch side text
    let out := filter_checklist text (s1.listL, s1.listR)
      (jsonDumpsOpt cfg.nothingFound) (jsonDumpsOpt cfg.placeholder)
      (s1.selOf side) side
    (s1.setChildren side out.1).setSel side (some out.2)
  | .checkChanged side sel => s.setSel side sel
  | .transferClick side =>
    applyTransferPatch s (transfer_values .transfer side (s.selL, s.selR)
      (s.searchL, s.searchR) (s.listL, s.listR)
      (jsonDumpsOpt cfg.placeholder)
      (jsonDumpsBool cfg.transferAllMatchingFilters))
  | .transferAllClick side =>
    applyTransferPatch s (transfer_values .transferAll side (s.selL, s.selR)
      (s.searchL, s.searchR) (s.listL, s.listR)
      (jsonDumpsOpt cfg.placeholder)
      (jsonDumpsBool cfg.transferAllMatchingFilters))

/-- Run a sequence of stimuli from a state. -/
def run (cfg : WidgetConfig) (s : TLState) : List Stim → TLState
  | [] => s
  | st :: rest => run cfg (step cfg s st) rest

/-- Values held by a list, in order. -/
def valuesOf (l : List Item) : List String := l.map Item.value

/-- All values across both sides of a state, left then right. -/
def TLState.allValues (s : TLState) : List String :=
  valuesOf s.listL ++ valuesOf s.listR

/-- No value occurs on both sides. -/
def SidesDisjoint (s : TLState) : Prop :=
  ∀ x, x ∈ valuesOf s.listL → x ∉ valuesOf s.listR

/-- Transfer Engine contract as worded by the spec (§4.3): `newSource` keeps
the source items whose value is not in `values`, `newDest` appends the moved
source items, in source order, to the end of `dest`. Stated separately from
`transfer_values` so the code's behavior can be compared against it. -/
def transferSpec (source dest : List Item) (values : List String) :
    List Item × List Item :=
  (source.filter (fun v => !(values.contains v.value)),
   dest ++ source.filter (fun v => values.contains v.value))

@[simp] theorem setSearch_listL (s : TLState) (side : Side) (t : String) :
    (s.setSearch side t).listL = s.listL := by
  cases side <;> rfl

@[simp] theorem setSearch_listR (s : TLState) (side : Side) (t : String) :
    (s.setSearch side t).listR = s.listR := by
  cases side <;> rfl

@[simp] theorem setSel_listL (s : TLState) (side : Side)
    (sel : Option (List String)) : (s.setSel side sel).listL = s.listL := by
  cases side <;> rfl

@[simp] theorem setSel_listR (s : TLState) (side : Side)
    (sel : Option (List String)) : (s.setSel side sel).listR = s.listR := by
  cases side <;> rfl

@[simp] theorem setChildren_listL (s : TLState) (side : Side) (c : Children) :
    (s.setChildren side c).listL = s.listL := by
  cases side <;> rfl

@[simp] theorem setChildren_listR (s : TLState) (side : Side) (c : Children) :
    (s.setChildren side c).listR = s.listR := by
  cases side <;> rfl

@[simp] theorem applyTransferPatch_noUpdate (s : TLState) :
    applyTransferPatch s .noUpdate = s := rfl

theorem jsonLoadsBool_dumps (b : Bool) :
    jsonLoadsBool (jsonDumpsBool b) = b := by
  cases b <;> decide

theorem jsonDumpsOpt_not_falsy (o : Option String) :
    pyFalsyStr (jsonDumpsOpt o) = false := by
  cases o with
  | none => decide
  | some s =>
    simp only [pyFalsyStr, jsonDumpsOpt, beq_eq_false_iff_ne, ne_eq,
      String.ext_iff, String.data_append]
    intro h
    simp at h

theorem jsonLoadsOpt_dumps (o : Option String) :
    jsonLoadsOpt (jsonDumpsOpt o) = o := by
  cases o with
  | none => decide
  | some s =>
    have hne : ("\x22" ++ s ++ "\x22") ≠ "null" := by
      simp only [ne_eq, String.ext_iff, String.data_append]
      intro h
      rw [List.singleton_append] at h
      injection h with h1 _
      exact absurd h1 (by decide)
    simp only [jsonDumpsOpt, jsonLoadsOpt, if_neg hne, String.data_append]
    cases s with
    | mk data => simp

theorem valuesOf_append (l1 l2 : List Item) :
    valuesOf (l1 ++ l2) = valuesOf l1 ++ valuesOf l2 := by
  simp [valuesOf]

theorem partition_perm_left {α : Type} (c : α → Bool) (L R : List α) :
    List.Perm (L.filter (fun v => !(c v)) ++ (R ++ L.filter c)) (L ++ R) := by
  have h2 : List.Perm (L.filter (fun v => !(c v)) ++ L.filter c) L :=
    List.perm_append_comm.trans (List.filter_append_perm c L)
  have h4 : List.Perm (L.filter (fun v => !(c v)) ++ (R ++ L.filter c))
      (L.filter (fun v => !(c v)) ++ (L.filter c ++ R)) :=
    List.Perm.append_left _ List.perm_append_comm
  refine h4.trans ?_
  rw [← List.append_assoc]
  exact h2.append_right R

theorem partition_perm_right {α : Type} (c : α → Bool) (L R : List α) :
    List.Perm ((L ++ R.filter c) ++ R.filter (fun v => !(c v))) (L ++ R) := by
  rw [List.append_assoc]
  exact List.Perm.append_left L (List.filter_append_perm c R)

theorem disjoint_after_transfer_left (q : String → Bool) (L R : List Item)
    (h : ∀ x, x ∈ valuesOf L → x ∉ valuesOf R) :
    ∀ x, x ∈ valuesOf (L.filter (fun v => !(q v.value))) →
      x ∉ valuesOf (R ++ L.filter (fun v => q v.value)) := by
  intro x hx hmem
  simp only [valuesOf, List.mem_map, List.mem_filter, Bool.not_eq_true',
    List.map_append, List.mem_append] at hx hmem h
  obtain ⟨v, ⟨hvL, hq⟩, hvx⟩ := hx
  rcases hmem with hR | ⟨w, ⟨hwL, hqw⟩, hwx⟩
  · exact h x ⟨v, hvL, hvx⟩ hR
  · rw [hwx] at hqw
    rw [hvx] at hq
    rw [hqw] at hq
    simp at hq

theorem disjoint_after_transfer_right (q : String → Bool) (L R : List Item)
    (h : ∀ x, x ∈ valuesOf L → x ∉ valuesOf R) :
    ∀ x, x ∈ valuesOf (L ++ R.filter (fun v => q v.value)) →
      x ∉ valuesOf (R.filter (fun v => !(q v.value))) := by
  intro x hx hmem
  simp only [valuesOf, List.mem_map, List.mem_filter, Bool.not_eq_true',
    List.map_append, List.mem_append] at hx hmem h
  obtain ⟨w, ⟨hwR, hqw⟩, hwx⟩ := hmem
  rcases hx with hL | ⟨v, ⟨hvR, hq⟩, hvx⟩
  · exact h x hL ⟨w, hwR, hwx⟩
  · rw [hvx] at hq
    rw [hwx] at hqw
    rw [hqw] at hq
    simp at hq

theorem valuesOf_partition_perm_left (c : Item → Bool) (L R : List Item) :
    List.Perm (valuesOf (L.filter (fun v => !(c v))) ++ valuesOf (R ++ L.filter c))
      (valuesOf L ++ valuesOf R) := by
  have h := (partition_perm_left c L R).map Item.value
  simpa [valuesOf, List.map_append] using h

theorem valuesOf_partition_perm_right (c : Item → Bool) (L R : List Item) :
    List.Perm (valuesOf (L ++ R.filter c) ++ valuesOf (R.filter (fun v => !(c v))))
      (valuesOf L ++ valuesOf R) := by
  have h := (partition_perm_right c L R).map Item.value
  simpa [valuesOf, List.map_append] using h

theorem allValues_eq (s : TLState) :
    s.allValues = valuesOf s.listL ++ valuesOf s.listR := rfl

theorem transfer_values_falsy (trig : Trigger) (side : Side)
    (sel : Option (List String) × Option (List String))
    (q : String × String) (cv : List Item × List Item) (ph tm : String)
    (h : pyFalsySel (transferredOf trig side sel q cv tm) = true) :
    transfer_values trig side sel q cv ph tm = .noUpdate := by
  simp [transfer_values, h]

theorem transfer_values_success_left (trig : Trigger)
    (sel : Option (List String) × Option (List String))
    (q : String × String) (cv : List Item × List Item) (ph tm : String)
    (h : pyFalsySel (transferredOf trig .left sel q cv tm) = false) :
    (transfer_values trig .left sel q cv ph tm).value =
      some (cv.1.filter
          (fun v => !(((transferredOf trig .left sel q cv tm).getD []).contains v.value)),
        cv.2 ++ cv.1.filter
          (fun v => ((transferredOf trig .left sel q cv tm).getD []).contains v.value)) ∧
    (transfer_values trig .left sel q cv ph tm).selection = some ([], []) ∧
    (transfer_values trig .left sel q cv ph tm).search = some ("", "") := by
  refine ⟨?_, ?_, ?_⟩ <;> simp [transfer_values, h]

theorem transfer_values_success_right (trig : Trigger)
    (sel : Option (List String) × Option (List String))
    (q : String × String) (cv : List Item × List Item) (ph tm : String)
    (h : pyFalsySel (transferredOf trig .right sel q cv tm) = false) :
    (transfer_values trig .right sel q cv ph tm).value =
      some (cv.1 ++ cv.2.filter
          (fun v => ((transferredOf trig .right sel q cv tm).getD []).contains v.value),
        cv.2.filter
          (fun v => !(((transferredOf trig .right sel q cv tm).getD []).contains v.value))) ∧
    (transfer_values trig .right sel q cv ph tm).selection = some ([], []) ∧
    (transfer_values trig .right sel q cv ph tm).search = some ("", "") := by
  refine ⟨?_, ?_, ?_⟩ <;> simp [transfer_values, h]

theorem applyTransferPatch_lists (s : TLState) (p : TransferPatch)
    (nv : List Item × List Item) (h : p.value = some nv) :
    (applyTransferPatch s p).listL = nv.1 ∧ (applyTransferPatch s p).listR = nv.2 := by
  obtain ⟨v, c, se, sr⟩ := p
  simp only at h
  subst h
  cases c <;> cases se <;> cases sr <;> simp [applyTransferPatch]

theorem transfer_step_preserves (trig : Trigger) (side : Side) (s : TLState)
    (ph tm : String) :
    List.Perm (applyTransferPatch s (transfer_values trig side (s.selL, s.selR)
        (s.searchL, s.searchR) (s.listL, s.listR) ph tm)).allValues s.allValues ∧
      (SidesDisjoint s → SidesDisjoint (applyTransferPatch s
        (transfer_values trig side (s.selL, s.selR) (s.searchL, s.searchR)
          (s.listL, s.listR) ph tm))) := by
  by_cases h : pyFalsySel (transferredOf trig side (s.selL, s.selR)
      (s.searchL, s.searchR) (s.listL, s.listR) tm) = true
  · rw [transfer_values_falsy _ _ _ _ _ _ _ h, applyTransferPatch_noUpdate]
    exact ⟨List.Perm.refl _, id⟩
  · rw [Bool.not_eq_true] at h
    cases side with
    | left =>
      obtain ⟨hval, hsel, hsr⟩ :=
        transfer_values_success_left trig (s.selL, s.selR) (s.searchL, s.searchR)
          (s.listL, s.listR) ph tm h
      obtain ⟨hL, hR⟩ := applyTransferPatch_lists s _ _ hval
      constructor
      · rw [allValues_eq, allValues_eq, hL, hR]
        exact valuesOf_partition_perm_left _ s.listL s.listR
      · intro hd
        unfold SidesDisjoint
        rw [hL, hR]
        exact disjoint_after_transfer_left
          (fun y => ((transferredOf trig .left (s.selL, s.selR)
            (s.searchL, s.searchR) (s.listL, s.listR) tm).getD []).contains y)
          s.listL s.listR hd
    | right =>
      obtain ⟨hval, hsel, hsr⟩ :=
        transfer_values_success_right trig (s.selL, s.selR) (s.searchL, s.searchR)
          (s.listL, s.listR) ph tm h
      obtain ⟨hL, hR⟩ := applyTransferPatch_lists s _ _ hval
      constructor
      · rw [allValues_eq, allValues_eq, hL, hR]
        exact valuesOf_partition_perm_right _ s.listL s.listR
      · intro hd
        unfold SidesDisjoint
        rw [hL, hR]
        exact disjoint_after_transfer_right
          (fun y => ((transferredOf trig .right (s.selL, s.selR)
            (s.searchL, s.searchR) (s.listL, s.listR) tm).getD []).contains y)
          s.listL s.listR hd

theorem step_preserves (cfg : WidgetConfig) (s : TLState) (st : Stim) :
    List.Perm (step cfg s st).allValues s.allValues ∧
      (SidesDisjoint s → SidesDisjoint (step cfg s st)) := by
  cases st with
  | searchChanged side text =>
    have hL : (step cfg s (.searchChanged side text)).listL = s.listL := by
      simp [step]
    have hR : (step cfg s (.searchChanged side text)).listR = s.listR := by
      simp [step]
    constructor
    · rw [allValues_eq, allValues_eq, hL, hR]
    · intro hd
      unfold SidesDisjoint
      rw [hL, hR]
      exact hd
  | checkChanged side sel =>
    have hL : (step cfg s (.checkChanged side sel)).listL = s.listL := by
      simp [step]
    have hR : (step cfg s (.checkChanged side sel)).listR = s.listR := by
      simp [step]
    constructor
    · rw [allValues_eq, allValues_eq, hL, hR]
    · intro hd
      unfold SidesDisjoint
      rw [hL, hR]
      exact hd
  | transferClick side => exact transfer_step_preserves .transfer side s _ _
  | transferAllClick side => exact transfer_step_preserves .transferAll side s _ _

theorem run_preserves (cfg : WidgetConfig) (stims : List Stim) (s : TLState) :
    List.Perm (run cfg s stims).allValues s.allValues ∧
      (SidesDisjoint s → SidesDisjoint (run cfg s stims)) := by
  induction stims generalizing s with
  | nil => exact ⟨List.Perm.refl _, id⟩
  | cons st rest ih =>
    obtain ⟨hp, hd⟩ := step_preserves cfg s st
    obtain ⟨hp2, hd2⟩ := ih (step cfg s st)
    exact ⟨hp2.trans hp, fun h => hd2 (hd h)⟩

/-- Demo items from `app.py`, used as concrete inputs. -/
def itReact : Item := ⟨"react", "React"⟩

/-- Demo item Angular from `app.py`. -/
def itNg : Item := ⟨"ng", "Angular"⟩

/-- Demo item Vue from `app.py`. -/
def itVue : Item := ⟨"vue", "Vue"⟩

/-- Demo item Svelte from `app.py`. -/
def itSv : Item := ⟨"sv", "Svelte"⟩

/-- Configuration of the demo page in `app.py` (no limit). -/
def cfgDemo : WidgetConfig :=
  { limit := none
    nothingFound := some "Nothing matches your search"
    placeholder := some "No items"
    transferAllMatchingFilters := true }

/-- C1: starting from a `construct`-ed widget whose two lists share no value,
every sequence of stimuli (searches, checkbox toggles, transfer and
transfer-all clicks) keeps the multiset of values across the two lists
unchanged (hence the lengths sum is preserved) and never puts a value in
both lists simultaneously. -/
theorem thm_C1_partition_invariant (cfg : WidgetConfig)
    (v : List Item × List Item) (s0 : TLState) (stims : List Stim)
    (hok : construct cfg.limit v = .ok s0)
    (hdisj : ∀ x, x ∈ valuesOf v.1 → x ∉ valuesOf v.2) :
    List.Perm (run cfg s0 stims).allValues (valuesOf v.1 ++ valuesOf v.2) ∧
    SidesDisjoint (run cfg s0 stims) ∧
    (run cfg s0 stims).listL.length + (run cfg s0 stims).listR.length =
      v.1.length + v.2.length := by
  have hs0 : initState cfg.limit v = s0 := by
    simpa [construct] using hok
  subst hs0
  obtain ⟨hp, hd⟩ := run_preserves cfg stims (initState cfg.limit v)
  have hinit : (initState cfg.limit v).allValues = valuesOf v.1 ++ valuesOf v.2 :=
    rfl
  refine ⟨hinit ▸ hp, hd hdisj, ?_⟩
  have hlen := (hinit ▸ hp).length_eq
  simpa [TLState.allValues, valuesOf] using hlen

@[simp] theorem pickSide_sel (s : TLState) (side : Side) :
    pickSide (s.selL, s.selR) side = s.selOf side := by
  cases side <;> rfl

@[simp] theorem pickSide_list (s : TLState) (side : Side) :
    pickSide (s.listL, s.listR) side = s.listOf side := by
  cases side <;> rfl

@[simp] theorem pickSide_search (s : TLState) (side : Side) :
    pickSide (s.searchL, s.searchR) side = s.searchOf side := by
  cases side <;> rfl

theorem childrenOf_after_search (s : TLState) (side : Side) (c : Children)
    (sel : Option (List String)) :
    ((s.setChildren side c).setSel side sel).childrenOf side = c := by
  cases side <;> rfl

theorem transferredOf_transfer (side : Side)
    (sel : Option (List String) × Option (List String))
    (q : String × String) (cv : List Item × List Item) (tm : String) :
    transferredOf .transfer side sel q cv tm = pickSide sel side := rfl

theorem transferredOf_transferAll_matching (side : Side)
    (sel : Option (List String) × Option (List String))
    (q : String × String) (cv : List Item × List Item) :
    transferredOf .transferAll side sel q cv (jsonDumpsBool true) =
      some (((pickSide cv side).filter
        (matchesSearch (pickSide q side))).map Item.value) := by
  simp [transferredOf, jsonLoadsBool, jsonDumpsBool]

theorem transferredOf_transferAll_not_matching (side : Side)
    (sel : Option (List String) × Option (List String))
    (q : String × String) (cv : List Item × List Item) :
    transferredOf .transferAll side sel q cv (jsonDumpsBool false) =
      some ((pickSide cv side).map Item.value) := by
  simp [transferredOf, jsonLoadsBool, jsonDumpsBool]

theorem applyTransferPatch_search_sel (s : TLState) (p : TransferPatch)
    (nq : String × String) (nsel : List String × List String)
    (hq : p.search = some nq) (hs : p.selection = some nsel) :
    (applyTransferPatch s p).searchL = nq.1 ∧
    (applyTransferPatch s p).searchR = nq.2 ∧
    (applyTransferPatch s p).selL = some nsel.1 ∧
    (applyTransferPatch s p).selR = some nsel.2 := by
  obtain ⟨v, c, se, sr⟩ := p
  simp only at hq hs
  subst hq
  subst hs
  cases v <;> cases c <;> simp [applyTransferPatch]

theorem transfer_noop_of_falsy_sel (cfg : WidgetConfig) (s : TLState)
    (side : Side) (h : pyFalsySel (s.selOf side) = true) :
    transfer_values .transfer side (s.selL, s.selR) (s.searchL, s.searchR)
      (s.listL, s.listR) (jsonDumpsOpt cfg.placeholder)
      (jsonDumpsBool cfg.transferAllMatchingFilters) = .noUpdate ∧
    step cfg s (.transferClick side) = s := by
  have h2 : pyFalsySel (transferredOf .transfer side (s.selL, s.selR)
      (s.searchL, s.searchR) (s.listL, s.listR)
      (jsonDumpsBool cfg.transferAllMatchingFilters)) = true := by
    rw [transferredOf_transfer, pickSide_sel]
    exact h
  refine ⟨transfer_values_falsy _ _ _ _ _ _ _ h2, ?_⟩
  show applyTransferPatch s _ = s
  rw [transfer_values_falsy _ _ _ _ _ _ _ h2, applyTransferPatch_noUpdate]

theorem transferAll_noop_matching (cfg : WidgetConfig) (s : TLState)
    (side : Side) (hm : cfg.transferAllMatchingFilters = true)
    (hemp : (s.listOf side).filter (matchesSearch (s.searchOf side)) = []) :
    transfer_values .transferAll side (s.selL, s.selR) (s.searchL, s.searchR)
      (s.listL, s.listR) (jsonDumpsOpt cfg.placeholder)
      (jsonDumpsBool cfg.transferAllMatchingFilters) = .noUpdate ∧
    step cfg s (.transferAllClick side) = s := by
  have h2 : pyFalsySel (transferredOf .transferAll side (s.selL, s.selR)
      (s.searchL, s.searchR) (s.listL, s.listR)
      (jsonDumpsBool cfg.transferAllMatchingFilters)) = true := by
    rw [hm, transferredOf_transferAll_matching]
    simp only [pickSide_list, pickSide_search, hemp]
    rfl
  refine ⟨transfer_values_falsy _ _ _ _ _ _ _ h2, ?_⟩
  show applyTransferPatch s _ = s
  rw [transfer_values_falsy _ _ _ _ _ _ _ h2, applyTransferPatch_noUpdate]

theorem transferAll_noop_empty (cfg : WidgetConfig) (s : TLState)
    (side : Side) (hm : cfg.transferAllMatchingFilters = false)
    (hemp : s.listOf side = []) :
    transfer_values .transferAll side (s.selL, s.selR) (s.searchL, s.searchR)
      (s.listL, s.listR) (jsonDumpsOpt cfg.placeholder)
      (jsonDumpsBool cfg.transferAllMatchingFilters) = .noUpdate ∧
    step cfg s (.transferAllClick side) = s := by
  have h2 : pyFalsySel (transferredOf .transferAll side (s.selL, s.selR)
      (s.searchL, s.searchR) (s.listL, s.listR)
      (jsonDumpsBool cfg.transferAllMatchingFilters)) = true := by
    rw [hm, transferredOf_transferAll_not_matching]
    simp only [pickSide_list, hemp]
    rfl
  refine ⟨transfer_values_falsy _ _ _ _ _ _ _ h2, ?_⟩
  show applyTransferPatch s _ = s
  rw [transfer_values_falsy _ _ _ _ _ _ _ h2, applyTransferPatch_noUpdate]

/-- Concrete state used for the transfer counterexample/witnesses: left list
holds React and Angular, "react" is selected on the left and the left search
box holds "re". -/
def sC2 : TLState :=
  { listL := [itReact, itNg]
    listR := []
    selL := some ["react"]
    selR := some []
    searchL := "re"
    searchR := ""
    childrenL := .boxes [itReact]
    childrenR := .text (some "No items") }

/-- Concrete state used for the no-op witnesses: no selection on the left,
and the left search "zz" filters everything out. -/
def sNoop : TLState :=
  { listL := [itReact]
    listR := [itSv]
    selL := none
    selR := some []
    searchL := "zz"
    searchR := ""
    childrenL := .text (some "Nothing matches your search")
    childrenR := .boxes [itSv] }

/-- C1 witness: the invariant instantiated on the demo configuration, lists
`[React, Angular] / [Svelte]`, checking "react" and clicking transfer. -/
theorem thm_C1_partition_invariant_witness :
    List.Perm (run cfgDemo (initState cfgDemo.limit ([itReact, itNg], [itSv]))
        [Stim.checkChanged .left (some ["react"]), Stim.transferClick .left]).allValues
      (valuesOf [itReact, itNg] ++ valuesOf [itSv]) ∧
    SidesDisjoint (run cfgDemo (initState cfgDemo.limit ([itReact, itNg], [itSv]))
        [Stim.checkChanged .left (some ["react"]), Stim.transferClick .left]) ∧
    (run cfgDemo (initState cfgDemo.limit ([itReact, itNg], [itSv]))
        [Stim.checkChanged .left (some ["react"]), Stim.transferClick .left]).listL.length +
      (run cfgDemo (initState cfgDemo.limit ([itReact, itNg], [itSv]))
        [Stim.checkChanged .left (some ["react"]), Stim.transferClick .left]).listR.length =
      ([itReact, itNg] : List Item).length + ([itSv] : List Item).length :=
  thm_C1_partition_invariant cfgDemo ([itReact, itNg], [itSv]) _
    [Stim.checkChanged .left (some ["react"]), Stim.transferClick .left]
    rfl (by decide)

/-- C3: a transfer of a non-empty value set produces exactly the partition
the spec describes (`transferSpec`): the clicked side keeps its non-matching
items in order, the other side is its old items followed by the moved items
in their original relative order; both parts are order-preserving
subsequences of the source. -/
theorem thm_C3_transfer_partition (sel2 : Option (List String))
    (q : String × String) (cv : List Item × List Item) (ph tm : String)
    (t : List String) (hne : t ≠ []) :
    (transfer_values .transfer .left (some t, sel2) q cv ph tm).value =
      some (transferSpec cv.1 cv.2 t) ∧
    (transfer_values .transfer .right (sel2, some t) q cv ph tm).value =
      some ((transferSpec cv.2 cv.1 t).2, (transferSpec cv.2 cv.1 t).1) ∧
    List.Sublist (transferSpec cv.1 cv.2 t).1 cv.1 ∧
    List.Sublist (cv.1.filter (fun v => t.contains v.value)) cv.1 := by
  have hf : pyFalsySel (some t) = false := by
    cases t with
    | nil => exact absurd rfl hne
    | cons a as => rfl
  refine ⟨?_, ?_, List.filter_sublist _, List.filter_sublist _⟩
  · have h := (transfer_values_success_left .transfer (some t, sel2) q cv ph tm
      (by rw [transferredOf_transfer]; exact hf)).1
    rw [h]
    simp [transferredOf_transfer, transferSpec, pickSide]
  · have h := (transfer_values_success_right .transfer (sel2, some t) q cv ph tm
      (by rw [transferredOf_transfer]; exact hf)).1
    rw [h]
    simp [transferredOf_transfer, transferSpec, pickSide]

/-- C3 witness: moving "react" out of `[React, Angular]` onto `[Svelte]`. -/
theorem thm_C3_transfer_partition_witness :
    (transfer_values .transfer .left (some ["react"], none) ("", "")
        ([itReact, itNg], [itSv]) (jsonDumpsOpt (some "No items"))
        (jsonDumpsBool true)).value =
      some (transferSpec [itReact, itNg] [itSv] ["react"]) ∧
    (transfer_values .transfer .right (none, some ["react"]) ("", "")
        ([itReact, itNg], [itSv]) (jsonDumpsOpt (some "No items"))
        (jsonDumpsBool true)).value =
      some ((transferSpec [itSv] [itReact, itNg] ["react"]).2,
        (transferSpec [itSv] [itReact, itNg] ["react"]).1) ∧
    List.Sublist (transferSpec [itReact, itNg] [itSv] ["react"]).1 [itReact, itNg] ∧
    List.Sublist ([itReact, itNg].filter (fun v => ["react"].contains v.value))
      [itReact, itNg] ∧
    transferSpec [itReact, itNg] [itSv] ["react"] = ([itNg], [itSv, itReact]) := by
  refine ⟨?_, ?_, ?_, ?_, by decide⟩ <;>
    exact (by
      obtain ⟨h1, h2, h3, h4⟩ :=
        thm_C3_transfer_partition none ("", "") ([itReact, itNg], [itSv])
          (jsonDumpsOpt (some "No items")) (jsonDumpsBool true) ["react"]
          (by decide)
      first
      | exact h1
      | exact h2
      | exact h3
      | exact h4)

/-- C4 counterexample: constructing with `Left=[{a,A}]`, `Right=[{a,A}]`
succeeds — it does not fail with `DuplicateValueError` as the claim states. -/
theorem thm_C4_counterexample :
    construct none ([⟨"a", "A"⟩], [⟨"a", "A"⟩]) =
      .ok (initState none ([⟨"a", "A"⟩], [⟨"a", "A"⟩])) ∧
    construct none ([⟨"a", "A"⟩], [⟨"a", "A"⟩]) ≠
      .error ConstructError.duplicateValue := by
  refine ⟨rfl, ?_⟩
  intro h
  simp [construct] at h

/-- C4 amended: `Construct` performs no duplicate-value validation and
cannot fail: for every input, including one value present in both lists, it
returns the initial state holding the given lists verbatim. -/
theorem thm_C4_amended (limit : Option Nat) (v : List Item × List Item) :
    construct limit v = .ok (initState limit v) ∧
    (initState limit v).listL = v.1 ∧ (initState limit v).listR = v.2 :=
  ⟨rfl, rfl, rfl⟩

/-- C5: a transfer over an empty value set is a no-op: transfer-one with a
falsy (missing or empty) selection, transfer-all-matching over a
fully-filtered-out list, and plain transfer-all over an empty list all
return the all-`no_update` patch and leave the whole widget state (lists,
selections, rendered lists, search texts) unchanged. -/
theorem thm_C5_transfer_noop (cfg : WidgetConfig) (s : TLState) (side : Side) :
    (pyFalsySel (s.selOf side) = true →
      transfer_values .transfer side (s.selL, s.selR) (s.searchL, s.searchR)
        (s.listL, s.listR) (jsonDumpsOpt cfg.placeholder)
        (jsonDumpsBool cfg.transferAllMatchingFilters) = .noUpdate ∧
      step cfg s (.transferClick side) = s) ∧
    (cfg.transferAllMatchingFilters = true →
      (s.listOf side).filter (matchesSearch (s.searchOf side)) = [] →
      transfer_values .transferAll side (s.selL, s.selR) (s.searchL, s.searchR)
        (s.listL, s.listR) (jsonDumpsOpt cfg.placeholder)
        (jsonDumpsBool cfg.transferAllMatchingFilters) = .noUpdate ∧
      step cfg s (.transferAllClick side) = s) ∧
    (cfg.transferAllMatchingFilters = false →
      s.listOf side = [] →
      transfer_values .transferAll side (s.selL, s.selR) (s.searchL, s.searchR)
        (s.listL, s.listR) (jsonDumpsOpt cfg.placeholder)
        (jsonDumpsBool cfg.transferAllMatchingFilters) = .noUpdate ∧
      step cfg s (.transferAllClick side) = s) :=
  ⟨fun h => transfer_noop_of_falsy_sel cfg s side h,
   fun hm hemp => transferAll_noop_matching cfg s side hm hemp,
   fun hm hemp => transferAll_noop_empty cfg s side hm hemp⟩

/-- C5 witness: on `sNoop` (no left selection, left search filters all out)
both the transfer click and the transfer-all click are no-ops. -/
theorem thm_C5_transfer_noop_witness :
    (transfer_values .transfer .left (sNoop.selL, sNoop.selR)
        (sNoop.searchL, sNoop.searchR) (sNoop.listL, sNoop.listR)
        (jsonDumpsOpt cfgDemo.placeholder)
        (jsonDumpsBool cfgDemo.transferAllMatchingFilters) = .noUpdate ∧
      step cfgDemo sNoop (.transferClick .left) = sNoop) ∧
    (transfer_values .transferAll .left (sNoop.selL, sNoop.selR)
        (sNoop.searchL, sNoop.searchR) (sNoop.listL, sNoop.listR)
        (jsonDumpsOpt cfgDemo.placeholder)
        (jsonDumpsBool cfgDemo.transferAllMatchingFilters) = .noUpdate ∧
      step cfgDemo sNoop (.transferAllClick .left) = sNoop) :=
  ⟨(thm_C5_transfer_noop cfgDemo sNoop .left).1 (by decide),
   (thm_C5_transfer_noop cfgDemo sNoop .left).2.1 rfl (by decide)⟩

/-- C2 counterexample: on `sC2` (left search "re", left selection
`["react"]`) a transfer-one click resets the left search text to `""`,
contradicting the claim that transfer-one leaves search texts unchanged. -/
theorem thm_C2_counterexample :
    sC2.searchL = "re" ∧
    (step cfgDemo sC2 (.transferClick .left)).searchL = "" ∧
    ¬((step cfgDemo sC2 (.transferClick .left)).searchL = sC2.searchL) := by
  decide

/-- C2 amended: every successful transfer-one (non-empty selection) behaves
like transfer-all with respect to search and selection: the callback sets
both search outputs to `""` and both selections to `[]`, so after the step
both search texts are empty and both selections cleared; only the no-op
branch leaves the search boxes untouched. -/
theorem thm_C2_amended (cfg : WidgetConfig) (s : TLState) (side : Side)
    (h : pyFalsySel (s.selOf side) = false) :
    (transfer_values .transfer side (s.selL, s.selR) (s.searchL, s.searchR)
        (s.listL, s.listR) (jsonDumpsOpt cfg.placeholder)
        (jsonDumpsBool cfg.transferAllMatchingFilters)).search = some ("", "") ∧
    (step cfg s (.transferClick side)).searchL = "" ∧
    (step cfg s (.transferClick side)).searchR = "" ∧
    (step cfg s (.transferClick side)).selL = some [] ∧
    (step cfg s (.transferClick side)).selR = some [] := by
  have h2 : pyFalsySel (transferredOf .transfer side (s.selL, s.selR)
      (s.searchL, s.searchR) (s.listL, s.listR)
      (jsonDumpsBool cfg.transferAllMatchingFilters)) = false := by
    rw [transferredOf_transfer, pickSide_sel]
    exact h
  cases side with
  | left =>
    obtain ⟨hval, hsel, hsr⟩ := transfer_values_success_left .transfer
      (s.selL, s.selR) (s.searchL, s.searchR) (s.listL, s.listR)
      (jsonDumpsOpt cfg.placeholder) (jsonDumpsBool cfg.transferAllMatchingFilters) h2
    obtain ⟨a, b, c, d⟩ := applyTransferPatch_search_sel s _ ("", "") ([], []) hsr hsel
    exact ⟨hsr, a, b, c, d⟩
  | right =>
    obtain ⟨hval, hsel, hsr⟩ := transfer_values_success_right .transfer
      (s.selL, s.selR) (s.searchL, s.searchR) (s.listL, s.listR)
      (jsonDumpsOpt cfg.placeholder) (jsonDumpsBool cfg.transferAllMatchingFilters) h2
    obtain ⟨a, b, c, d⟩ := applyTransferPatch_search_sel s _ ("", "") ([], []) hsr hsel
    exact ⟨hsr, a, b, c, d⟩

/-- C2 amended witness: the amended behavior on the concrete state `sC2`. -/
theorem thm_C2_amended_witness :
    (transfer_values .transfer .left (sC2.selL, sC2.selR)
        (sC2.searchL, sC2.searchR) (sC2.listL, sC2.listR)
        (jsonDumpsOpt cfgDemo.placeholder)
        (jsonDumpsBool cfgDemo.transferAllMatchingFilters)).search =
      some ("", "") ∧
    (step cfgDemo sC2 (.transferClick .left)).searchL = "" ∧
    (step cfgDemo sC2 (.transferClick .left)).searchR = "" ∧
    (step cfgDemo sC2 (.transferClick .left)).selL = some [] ∧
    (step cfgDemo sC2 (.transferClick .left)).selR = some [] :=
  thm_C2_amended cfgDemo sC2 .left (by decide)

@[simp] theorem listOf_setSearch (s : TLState) (side side2 : Side) (t : String) :
    ((s.setSearch side t).listOf side2) = s.listOf side2 := by
  cases side <;> cases side2 <;> rfl

theorem filter_checklist_children_nonempty (search : String)
    (values : List Item × List Item) (nf ph : String)
    (sel : Option (List String)) (side : Side)
    (h : (pickSide values side).filter (matchesSearch search) ≠ []) :
    (filter_checklist search values nf ph sel side).1 =
      .boxes ((pickSide values side).filter (matchesSearch search)) := by
  simp only [filter_checklist]
  rw [if_pos]
  simp [h]

theorem filter_checklist_children_empty (search : String)
    (values : List Item × List Item) (nf ph : Option String)
    (sel : Option (List String)) (side : Side)
    (h : (pickSide values side).filter (matchesSearch search) = []) :
    (filter_checklist search values (jsonDumpsOpt nf) (jsonDumpsOpt ph) sel side).1 =
      Children.text (if pyFalsyStr search then ph else nf) := by
  simp only [filter_checklist, h]
  cases hps : pyFalsyStr search <;>
    simp [hps, jsonDumpsOpt_not_falsy, jsonLoadsOpt_dumps]

/-- Configuration with a rendering limit of 1 item. -/
def cfgLimit1 : WidgetConfig :=
  { limit := some 1
    nothingFound := none
    placeholder := some "No items"
    transferAllMatchingFilters := true }

/-- Configuration without a configured `nothingFound` text. -/
def cfgNoNF : WidgetConfig :=
  { limit := none
    nothingFound := none
    placeholder := some "No items"
    transferAllMatchingFilters := true }

/-- C6 counterexample: with `limit = 1`, re-rendering after a search change
shows 2 items — truncation is not applied on every render, contradicting
the claim. -/
theorem thm_C6_counterexample :
    cfgLimit1.limit = some 1 ∧
    Children.count ((run cfgLimit1 (initState cfgLimit1.limit ([itReact, itNg], []))
      [Stim.searchChanged .left ""]).childrenL) = 2 ∧
    ¬(Children.count ((run cfgLimit1 (initState cfgLimit1.limit ([itReact, itNg], []))
      [Stim.searchChanged .left ""]).childrenL) ≤ 1) := by
  decide

/-- C6 amended: the `limit` truncates only the initially constructed
checklist (`value[:limit]`, before any filtering); every later render — the
dynamic `step` function — is fully independent of `limit`: a search
re-render shows all items matching the filter, and the
transfer-all-matching-filter eligibility is computed from the full
underlying list. -/
theorem thm_C6_amended (cfg : WidgetConfig) (l2 : Option Nat) (n : Nat)
    (v : List Item × List Item) (s : TLState) (st : Stim) (side : Side)
    (text : String) :
    (initState cfg.limit v).childrenL = .boxes (applyLimit cfg.limit v.1) ∧
    (initState cfg.limit v).childrenR = .boxes (applyLimit cfg.limit v.2) ∧
    (n ≠ 0 → (applyLimit (some n) v.1).length ≤ n) ∧
    step { cfg with limit := l2 } s st = step cfg s st ∧
    ((s.listOf side).filter (matchesSearch text) ≠ [] →
      (step cfg s (.searchChanged side text)).childrenOf side =
        .boxes ((s.listOf side).filter (matchesSearch text))) ∧
    (cfg.transferAllMatchingFilters = true →
      transferredOf .transferAll side (s.selL, s.selR) (s.searchL, s.searchR)
        (s.listL, s.listR) (jsonDumpsBool cfg.transferAllMatchingFilters) =
        some (((s.listOf side).filter
          (matchesSearch (s.searchOf side))).map Item.value)) := by
  refine ⟨rfl, rfl, ?_, ?_, ?_, ?_⟩
  · intro hn
    simp only [applyLimit, if_neg hn]
    exact List.length_take_le n v.1
  · cases st <;> rfl
  · intro hne
    show (((s.setSearch side text).setChildren side _).setSel side _).childrenOf side = _
    rw [childrenOf_after_search]
    rw [filter_checklist_children_nonempty]
    · rw [pickSide_list, listOf_setSearch]
    · rw [pickSide_list, listOf_setSearch]
      exact hne
  · intro hm
    rw [hm, transferredOf_transferAll_matching]
    rw [pickSide_list, pickSide_search]

/-- C6 amended witness: the amended behavior on concrete inputs with
`limit = 1`. -/
theorem thm_C6_amended_witness :
    (initState cfgLimit1.limit ([itReact, itNg], [])).childrenL =
      .boxes (applyLimit cfgLimit1.limit [itReact, itNg]) ∧
    (applyLimit (some 1) [itReact, itNg]).length ≤ 1 ∧
    step { cfgLimit1 with limit := none } sC2 (.searchChanged .left "an") =
      step cfgLimit1 sC2 (.searchChanged .left "an") ∧
    (step cfgLimit1 sC2 (.searchChanged .left "an")).childrenOf .left =
      .boxes ((sC2.listOf .left).filter (matchesSearch "an")) ∧
    (sC2.listOf .left).filter (matchesSearch "an") = [itNg] ∧
    transferredOf .transferAll .left (sC2.selL, sC2.selR)
      (sC2.searchL, sC2.searchR) (sC2.listL, sC2.listR)
      (jsonDumpsBool cfgLimit1.transferAllMatchingFilters) =
      some (((sC2.listOf .left).filter
        (matchesSearch (sC2.searchOf .left))).map Item.value) := by
  obtain ⟨h1, h2, h3, h4, h5, h6⟩ :=
    thm_C6_amended cfgLimit1 none 1 ([itReact, itNg], []) sC2
      (.searchChanged .left "an") .left "an"
  exact ⟨h1, h3 (by decide), h4, h5 (by decide), by decide, h6 rfl⟩

/-- C7: the filter returns the items unchanged (in order) for the empty
query, always returns an order-preserving subsequence, and for a non-empty
query returns exactly the items whose lower-cased label contains the
lower-cased query as a substring. -/
theorem thm_C7_filter (items : List Item) (q : String) :
    (q = "" → items.filter (matchesSearch q) = items) ∧
    List.Sublist (items.filter (matchesSearch q)) items ∧
    (q ≠ "" → items.filter (matchesSearch q) =
      items.filter (fun v => containsSub (pyLower v.label) (pyLower q))) := by
  refine ⟨?_, List.filter_sublist _, ?_⟩
  · intro hq
    subst hq
    apply List.filter_eq_self.mpr
    intro a _
    simp [matchesSearch, pyFalsyStr]
  · intro hq
    apply List.filter_congr
    intro a _
    simp [matchesSearch, pyFalsyStr, hq]

/-- C7 witness: the filter on the demo list, with the empty query and with
"an" (which keeps exactly Angular, spec Scenario B). -/
theorem thm_C7_filter_witness :
    ([itReact, itNg, itVue].filter (matchesSearch "") = [itReact, itNg, itVue]) ∧
    List.Sublist ([itReact, itNg, itVue].filter (matchesSearch "an"))
      [itReact, itNg, itVue] ∧
    ([itReact, itNg, itVue].filter (matchesSearch "an") =
      [itReact, itNg, itVue].filter
        (fun v => containsSub (pyLower v.label) (pyLower "an"))) ∧
    [itReact, itNg, itVue].filter (matchesSearch "an") = [itNg] :=
  ⟨(thm_C7_filter [itReact, itNg, itVue] "").1 rfl,
   (thm_C7_filter [itReact, itNg, itVue] "an").2.1,
   (thm_C7_filter [itReact, itNg, itVue] "an").2.2 (by decide),
   by decide⟩

/-- C8: the reconciled selection returned by `filter_checklist` is exactly
the intersection of the incoming selection with the values of the visible
(filtered) items; in particular every remaining selected value is visible. -/
theorem thm_C8_reconcile (search : String) (values : List Item × List Item)
    (nf ph : String) (sel : Option (List String)) (side : Side) (x : String) :
    (x ∈ (filter_checklist search values nf ph sel side).2 ↔
      x ∈ sel.getD [] ∧
        x ∈ valuesOf ((pickSide values side).filter (matchesSearch search))) ∧
    (x ∈ (filter_checklist search values nf ph sel side).2 →
      x ∈ valuesOf ((pickSide values side).filter (matchesSearch search))) := by
  have hiff : x ∈ (filter_checklist search values nf ph sel side).2 ↔
      x ∈ sel.getD [] ∧
        x ∈ valuesOf ((pickSide values side).filter (matchesSearch search)) := by
    simp [filter_checklist, valuesOf, List.mem_filter]
  exact ⟨hiff, fun h => (hiff.mp h).2⟩

/-- C8 witness: reconciling `["react", "ng"]` against the visible items for
search "re" keeps exactly "react". -/
theorem thm_C8_reconcile_witness :
    "react" ∈ (filter_checklist "re" ([itReact, itNg], [itSv])
      (jsonDumpsOpt (some "x")) (jsonDumpsOpt (some "y"))
      (some ["react", "ng"]) .left).2 ∧
    "react" ∈ valuesOf ((pickSide ([itReact, itNg], [itSv]) .left).filter
      (matchesSearch "re")) ∧
    (filter_checklist "re" ([itReact, itNg], [itSv])
      (jsonDumpsOpt (some "x")) (jsonDumpsOpt (some "y"))
      (some ["react", "ng"]) .left).2 = ["react"] :=
  ⟨by decide,
   (thm_C8_reconcile "re" ([itReact, itNg], [itSv]) (jsonDumpsOpt (some "x"))
     (jsonDumpsOpt (some "y")) (some ["react", "ng"]) .left "react").2 (by decide),
   by decide⟩

/-- C9 counterexample: with `nothingFound` unconfigured, a search that
matches nothing renders a dimmed `Text` with `None` content — not "nothing"
as the claim states (the JSON-encoded attribute `"null"` is a truthy
string, so the text branch is still taken). -/
theorem thm_C9_counterexample :
    cfgNoNF.nothingFound = none ∧
    (step cfgNoNF (initState none ([itReact], [itSv]))
      (.searchChanged .left "zz")).childrenL = Children.text none ∧
    (step cfgNoNF (initState none ([itReact], [itSv]))
      (.searchChanged .left "zz")).childrenL ≠ Children.nothing := by
  decide

/-- C9 amended: when the filtered list is empty, the search handler always
renders a dimmed text element: the `nothingFound` content if the search is
non-empty, else the `placeholder` content (an unconfigured content is
rendered as a text element with null content, never as no content at all);
and the placeholder case indeed implies the side's list is empty. -/
theorem thm_C9_amended (cfg : WidgetConfig) (s : TLState) (side : Side)
    (text : String)
    (hemp : (s.listOf side).filter (matchesSearch text) = []) :
    (step cfg s (.searchChanged side text)).childrenOf side =
      Children.text (if pyFalsyStr text then cfg.placeholder
        else cfg.nothingFound) ∧
    (pyFalsyStr text = true → s.listOf side = []) := by
  constructor
  · show (((s.setSearch side text).setChildren side _).setSel side _).childrenOf side = _
    rw [childrenOf_after_search]
    rw [filter_checklist_children_empty]
    rw [pickSide_list, listOf_setSearch]
    exact hemp
  · intro hft
    have htext : text = "" := by simpa [pyFalsyStr] using hft
    subst htext
    have hid : (s.listOf side).filter (matchesSearch "") = s.listOf side :=
      List.filter_eq_self.mpr (fun a _ => by simp [matchesSearch, pyFalsyStr])
    rw [hid] at hemp
    exact hemp

/-- C9 amended witness: the no-match render with `nothingFound`
unconfigured, and the empty-list render with the placeholder. -/
theorem thm_C9_amended_witness :
    (step cfgNoNF (initState none ([itReact], [itSv]))
      (.searchChanged .left "zz")).childrenOf .left =
      Children.text (if pyFalsyStr "zz" then cfgNoNF.placeholder
        else cfgNoNF.nothingFound) ∧
    (step cfgDemo (initState none ([], [itSv]))
      (.searchChanged .left "")).childrenOf .left =
      Children.text (if pyFalsyStr "" then cfgDemo.placeholder
        else cfgDemo.nothingFound) ∧
    (initState none ([], [itSv])).listOf .left = [] :=
  ⟨(thm_C9_amended cfgNoNF (initState none ([itReact], [itSv])) .left "zz"
      (by decide)).1,
   (thm_C9_amended cfgDemo (initState none ([], [itSv])) .left ""
      (by decide)).1,
   (thm_C9_amended cfgDemo (initState none ([], [itSv])) .left ""
      (by decide)).2 (by decide)⟩

/-- Concrete state with a missing (`None`) selection on both sides. -/
def sNone : TLState :=
  { listL := [itReact]
    listR := []
    selL := none
    selR := none
    searchL := ""
    searchR := ""
    childrenL := .boxes [itReact]
    childrenR := .text (some "No items") }

/-- C10: a missing (`None`) selection never causes an error: the search
handler reconciles it to the empty selection, and a transfer click with a
`None` selection on the clicked side takes the no-op branch, leaving the
state unchanged. -/
theorem thm_C10_none_selection (search : String)
    (values : List Item × List Item) (nf ph : String) (side : Side)
    (cfg : WidgetConfig) (s : TLState) :
    (filter_checklist search values nf ph none side).2 = [] ∧
    (s.selOf side = none →
      transfer_values .transfer side (s.selL, s.selR) (s.searchL, s.searchR)
        (s.listL, s.listR) (jsonDumpsOpt cfg.placeholder)
        (jsonDumpsBool cfg.transferAllMatchingFilters) = .noUpdate ∧
      step cfg s (.transferClick side) = s) := by
  constructor
  · simp [filter_checklist]
  · intro h
    exact transfer_noop_of_falsy_sel cfg s side (by rw [h]; rfl)

/-- C10 witness: the `None`-selection behavior on concrete inputs. -/
theorem thm_C10_none_selection_witness :
    (filter_checklist "re" ([itReact, itNg], [itSv])
      (jsonDumpsOpt (some "x")) (jsonDumpsOpt (some "y")) none .left).2 = [] ∧
    (transfer_values .transfer .left (sNone.selL, sNone.selR)
        (sNone.searchL, sNone.searchR) (sNone.listL, sNone.listR)
        (jsonDumpsOpt cfgDemo.placeholder)
        (jsonDumpsBool cfgDemo.transferAllMatchingFilters) = .noUpdate ∧
      step cfgDemo sNone (.transferClick .left) = sNone) :=
  ⟨(thm_C10_none_selection "re" ([itReact, itNg], [itSv])
      (jsonDumpsOpt (some "x")) (jsonDumpsOpt (some "y")) .left cfgDemo sNone).1,
   (thm_C10_none_selection "re" ([itReact, itNg], [itSv])
      (jsonDumpsOpt (some "x")) (jsonDumpsOpt (some "y")) .left cfgDemo sNone).2 rfl⟩
